import Mathlib

/-!
Verification of sql-dataset: configuration validation

A shallow embedding of `models/config.go` (package `models`): the configuration
data model, `Config.Validate`, `DatabaseConfig.Validate` and `LoadConfig`,
followed by the properties of the validator and of the loader.

Conventions of the embedding
* a Go `[]string` built only by `append` from the nil slice is a `List String`;
  the nil slice is `[]` (appending zero elements to nil leaves it nil, so the
  result of a validator is nil exactly when no violation was appended);
* a Go pointer that may be nil is an `Option`;
* `uint16` is a `Nat` (no arithmetic is performed on it);
* a Go `map[string]string` is an association list;
* a Go `[]byte` is a `List UInt8`.
-/

namespace SqlDataset

/-! ## Constants (config.go, lines 11-18) -/

def MySQLDriver : String := "mysql"
def PostgresDriver : String := "postgres"
def SQLiteDriver : String := "sqlite3"

/-- The package variable `supportedDrivers`. -/
def supportedDrivers : List String := [MySQLDriver, PostgresDriver, SQLiteDriver]

/-! ## Data model (config.go, lines 20-47) -/

structure TLSConfig where
  KeyFile : String := ""
  CertFile : String := ""
  CAFile : String := ""
  SSLMode : String := ""
  deriving DecidableEq

structure DatabaseConfig where
  Driver : String := ""
  URL : String := ""
  Host : String := ""
  Port : String := ""
  Protocol : String := ""
  Database : String := ""
  Username : String := ""
  Password : String := ""
  TLSConfig : Option TLSConfig := none
  Params : List (String × String) := []
  deriving DecidableEq

/-- Modelled from the spec: the type `Field` is declared outside `config.go`; its
two members are the ones the tests of `config_test.go` initialise and section 3
of the specification lists (`name`, `type`); the member `Type` is written
`Type_`, `Type` being reserved. -/
structure Field where
  Name : String := ""
  Type_ : String := ""
  deriving DecidableEq

/-- Modelled from the spec: the type `Dataset` is declared outside `config.go`;
its members are the ones the tests of `config_test.go` initialise and section 3
of the specification lists (`name`, `updateType`, `sql`, `fields`). -/
structure Dataset where
  Name : String := ""
  UpdateType : String := ""
  SQL : String := ""
  Fields : List Field := []
  deriving DecidableEq

structure Config where
  GeckoboardAPIKey : String := ""
  DatabaseConfig : Option DatabaseConfig := none
  RefreshTimeSec : Nat := 0
  Datasets : List Dataset := []
  deriving DecidableEq

/-! ## Formatting -/

/-- The text `fmt` produces for a `[]string` under the verb `%s`: the elements
separated by one blank, between square brackets. -/
def fmtStrings (xs : List String) : String :=
  "[" ++ " ".intercalate xs ++ "]"

/-- The text of
`fmt.Sprintf("Unsupported driver '%s' only %s are supported", driver, supportedDrivers)`. -/
def unsupportedDriverMsg (driver : String) : String :=
  "Unsupported driver '" ++ driver ++ "' only " ++ fmtStrings supportedDrivers ++ " are supported"

/-! ## Database validation (config.go, lines 85-104) -/

/-- The loop `for _, d := range supportedDrivers` of `DatabaseConfig.Validate`:
the value of `matched` when the loop ends, run over the part of the slice still
to visit. Finding the driver sets `matched` and leaves the loop (`break`). -/
def driverMatched (driver : String) : List String → Bool
  | [] => false
  | d :: rest => if d == driver then true else driverMatched driver rest

/-- The method `func (dc DatabaseConfig) Validate() (errors []string)`. -/
def DatabaseConfig.Validate (dc : DatabaseConfig) : List String :=
  let errors : List String := []
  if dc.Driver == "" then
    errors ++ ["Database driver is required"]
  else
    let matched := driverMatched dc.Driver supportedDrivers
    if !matched then
      errors ++ [unsupportedDriverMsg dc.Driver]
    else
      errors

/-! ## Dataset validation (declared outside config.go) -/

/-- Modelled from the spec: the constants of dataset validation, which are
declared outside `config.go`. The specification names these violations without
fixing their text and leaves the enumeration of field types to one authoritative
list; they are the parameters of the model. -/
structure DatasetTexts where
  /-- The "dataset name is required" violation (section 4.4, step 1). -/
  nameRequired : String
  /-- The "dataset sql is required" violation (section 4.4, step 3). -/
  sqlRequired : String
  /-- The "field name is required" violation (section 4.5, step 1). -/
  fieldNameRequired : String
  /-- The supported field-type enumeration (section 4.5, step 2). -/
  supportedFieldTypes : List String
  /-- The "field type unsupported" violation, which names the offending value
  (section 4.5, step 2). -/
  fieldTypeUnsupported : String → String

/-- The value `Append` of a dataset's update type. -/
def Append : String := "append"

/-- The value `Replace` of a dataset's update type. -/
def Replace : String := "replace"

/-- The violation of section 4.4, step 2. -/
def updateTypeMsg : String := "Dataset update type must be append or replace"

/-- Modelled from the spec: `Field.Validate` is declared outside `config.go`.
Section 4.5: an empty name is a violation, then a type outside the supported
enumeration is a violation. -/
def Field.Validate (T : DatasetTexts) (f : Field) : List String :=
  let errors : List String := []
  let errors := if f.Name == "" then errors ++ [T.fieldNameRequired] else errors
  let errors :=
    if !(T.supportedFieldTypes.contains f.Type_) then
      errors ++ [T.fieldTypeUnsupported f.Type_]
    else errors
  errors

/-- Modelled from the spec: `Dataset.Validate` is declared outside `config.go`.
Section 4.4: an empty name, an update type that is neither `append` nor
`replace`, an empty SQL text, then the violations of each field in order. -/
def Dataset.Validate (T : DatasetTexts) (ds : Dataset) : List String :=
  let errors : List String := []
  let errors := if ds.Name == "" then errors ++ [T.nameRequired] else errors
  let errors :=
    if ds.UpdateType != Append && ds.UpdateType != Replace then
      errors ++ [updateTypeMsg]
    else errors
  let errors := if ds.SQL == "" then errors ++ [T.sqlRequired] else errors
  let errors := ds.Fields.foldl (fun errors f => errors ++ Field.Validate T f) errors
  errors

/-! ## Top-level validation (config.go, lines 67-83) -/

/-- The method `func (c Config) Validate() (errors []string)`. The dataset
validator it calls takes the texts `T` declared outside `config.go`. -/
def Config.Validate (T : DatasetTexts) (c : Config) : List String :=
  let errors : List String := []
  let errors :=
    if c.GeckoboardAPIKey == "" then errors ++ ["Geckoboard api key is required"] else errors
  let errors :=
    match c.DatabaseConfig with
    | none => errors ++ ["Database config is required"]
    | some dc => errors ++ dc.Validate
  let errors := c.Datasets.foldl (fun errors ds => errors ++ Dataset.Validate T ds) errors
  errors

/-- Modelled from the spec: one choice of the texts of dataset validation, worded
as sections 4.4 and 4.5 name them, with the field types of section 3 (`number`
is the type the tests use). It serves as a concrete instance only. -/
def sampleTexts : DatasetTexts where
  nameRequired := "Dataset name is required"
  sqlRequired := "Dataset sql is required"
  fieldNameRequired := "Field name is required"
  supportedFieldTypes := ["number", "string", "date", "datetime", "percentage", "currency"]
  fieldTypeUnsupported := fun t => "Unsupported field type '" ++ t ++ "'"

/-! ## The parts of the result, as the specification words them

Section 4.2 describes the result of top-level validation as three parts appended
in order. The two definitions below follow those words; `validate_parts`
compares them with `Config.Validate`. -/

/-- Specification, section 4.2 step 1: the API-key violation, if the API key is
empty, else nothing. -/
def apiKeyPart (c : Config) : List String :=
  if c.GeckoboardAPIKey = "" then ["Geckoboard api key is required"] else []

/-- Specification, section 4.2 step 2: the database part, "Database config is
required" if the database block is absent, else the result of database
validation. -/
def databasePart (c : Config) : List String :=
  match c.DatabaseConfig with
  | none => ["Database config is required"]
  | some dc => dc.Validate

/-! ## Validation as a computation over the caller's configuration

`Validate` has a value receiver: the body works on a copy `c`, yet the pointer
`DatabaseConfig` and the slice `Datasets` of the copy still reach the caller's
data. The state of the computation below is that data; the body reads it and
holds no assignment to it. -/

/-- The method `func (c Config) Validate() (errors []string)`, statement by
statement, as a computation whose state is the caller's configuration. -/
def Config.ValidateM (T : DatasetTexts) : StateM Config (List String) := do
  let c ← get
  let mut errors : List String := []
  if c.GeckoboardAPIKey == "" then
    errors := errors ++ ["Geckoboard api key is required"]
  match c.DatabaseConfig with
  | none => errors := errors ++ ["Database config is required"]
  | some dc => errors := errors ++ dc.Validate
  for ds in c.Datasets do
    errors := errors ++ Dataset.Validate T ds
  return errors

/-- Two calls of `Validate` in a row on the same configuration, with both
results. -/
def validateTwice (T : DatasetTexts) : StateM Config (List String × List String) := do
  let first ← Config.ValidateM T
  let second ← Config.ValidateM T
  return (first, second)

/-! ## Loading (config.go, lines 18, 49-65) -/

/-- A Go `error` as `LoadConfig` returns one: a value made in `LoadConfig` by
`errors.New` or `fmt.Errorf`, which carries its text, or the error value `e`
that `ioutil.ReadFile` returned, handed on as it is. -/
inductive LoadError (E : Type) where
  | errorString (text : String)
  | fromReadFile (e : E)

/-- The two functions `LoadConfig` calls outside the package. `ReadFile` is
`ioutil.ReadFile` on the present filesystem: the bytes and the error, if any.
`Unmarshal` is `yaml.Unmarshal(b, &config)` on the nil `config`: the value
`config` holds after the call, and the text of the decoder's error, if any. -/
structure World (E : Type) where
  ReadFile : String → List UInt8 × Option E
  Unmarshal : List UInt8 → Option Config × Option String

/-- A call `LoadConfig` makes outside the package. -/
inductive Call where
  | ReadFile (filepath : String)
  | Unmarshal (b : List UInt8)
  deriving DecidableEq

/-- The text of `fmt.Errorf(errParseConfigFile, err)`, where `errParseConfigFile`
is "Error occurred parsing the config: %s": the template with the text of `err`
in place of the verb. -/
def errParseConfigFile (err : String) : String :=
  "Error occurred parsing the config: " ++ err

/-- The function `func LoadConfig(filepath string) (config *Config, err error)`:
the two values it returns, and the calls it made outside the package, in
order. -/
def LoadConfig {E : Type} (w : World E) (filepath : String) :
    (Option Config × Option (LoadError E)) × List Call :=
  if filepath == "" then
    ((none, some (LoadError.errorString "File path is required to load config")), [])
  else
    let (b, err) := w.ReadFile filepath
    match err with
    | some e => ((none, some (LoadError.fromReadFile e)), [Call.ReadFile filepath])
    | none =>
      let (config, err) := w.Unmarshal b
      match err with
      | some m =>
        ((none, some (LoadError.errorString (errParseConfigFile m))),
          [Call.ReadFile filepath, Call.Unmarshal b])
      | none => ((config, none), [Call.ReadFile filepath, Call.Unmarshal b])

/-- The method `Error()` of an error `LoadConfig` returns, `text` being the
method `Error()` of the errors of `ioutil.ReadFile`. -/
def LoadError.Error {E : Type} (text : E → String) : LoadError E → String
  | LoadError.errorString s => s
  | LoadError.fromReadFile e => text e

/-! ## Auxiliary facts -/

/-- The accumulating loop `for _, x := range xs { errors = append(errors, f x...) }`
leaves the violations it started with, followed by those of each element in order. -/
theorem foldl_append_flatMap {α : Type} (f : α → List String) (xs : List α)
    (init : List String) :
    xs.foldl (fun errors x => errors ++ f x) init = init ++ xs.flatMap f := by
  induction xs generalizing init with
  | nil => simp
  | cons x rest ih => simp [List.foldl_cons, ih, List.append_assoc]

/-- The membership loop answers whether the driver occurs in the list. -/
theorem driverMatched_iff (driver : String) (ds : List String) :
    driverMatched driver ds = true ↔ driver ∈ ds := by
  induction ds with
  | nil => simp [driverMatched]
  | cons d rest ih =>
    by_cases h : d = driver
    · simp [driverMatched, h]
    · have h2 : ¬ driver = d := fun e => h e.symm
      simp [driverMatched, h, h2, ih]

/-- Membership in `supportedDrivers`, spelled out. -/
theorem mem_supportedDrivers (d : String) :
    d ∈ supportedDrivers ↔ d = "mysql" ∨ d = "postgres" ∨ d = "sqlite3" := by
  simp [supportedDrivers, MySQLDriver, PostgresDriver, SQLiteDriver]

/-- The slice of supported drivers prints as `[mysql postgres sqlite3]`. -/
theorem fmtStrings_supportedDrivers :
    fmtStrings supportedDrivers = "[mysql postgres sqlite3]" := by decide

/-- The unsupported-driver text with the list printed. -/
theorem unsupportedDriverMsg_eq (d : String) :
    unsupportedDriverMsg d
      = "Unsupported driver '" ++ d ++ "' only [mysql postgres sqlite3] are supported" := by
  unfold unsupportedDriverMsg
  rw [fmtStrings_supportedDrivers, String.append_assoc, String.append_assoc]
  rfl

/-- Database validation of an empty driver. -/
theorem dbValidate_empty (dc : DatabaseConfig) (h : dc.Driver = "") :
    dc.Validate = ["Database driver is required"] := by
  simp [DatabaseConfig.Validate, h]

/-- Database validation of a supported driver. -/
theorem dbValidate_supported (dc : DatabaseConfig) (h : dc.Driver ∈ supportedDrivers) :
    dc.Validate = [] := by
  have hne : dc.Driver ≠ "" := by
    intro e
    rw [e] at h
    revert h
    decide
  have hm : driverMatched dc.Driver supportedDrivers = true := (driverMatched_iff _ _).2 h
  simp [DatabaseConfig.Validate, hne, hm]

/-- Database validation of a non-empty driver outside the supported list. -/
theorem dbValidate_unsupported (dc : DatabaseConfig) (hne : dc.Driver ≠ "")
    (h : dc.Driver ∉ supportedDrivers) :
    dc.Validate = [unsupportedDriverMsg dc.Driver] := by
  have hm : driverMatched dc.Driver supportedDrivers = false := by
    cases hb : driverMatched dc.Driver supportedDrivers with
    | false => rfl
    | true => exact absurd ((driverMatched_iff _ _).1 hb) h
  simp [DatabaseConfig.Validate, hne, hm]

/-- The result of `Config.Validate`, split into its three parts. -/
theorem validate_parts (T : DatasetTexts) (c : Config) :
    Config.Validate T c
      = apiKeyPart c ++ databasePart c ++ c.Datasets.flatMap (Dataset.Validate T) := by
  unfold Config.Validate apiKeyPart databasePart
  simp only [foldl_append_flatMap]
  by_cases hk : c.GeckoboardAPIKey = "" <;> cases hdb : c.DatabaseConfig <;> simp [hk]

/-- The datasets contribute nothing when each of them validates to the empty list. -/
theorem flatMap_validate_nil (T : DatasetTexts) (dss : List Dataset)
    (h : ∀ ds ∈ dss, Dataset.Validate T ds = []) :
    dss.flatMap (Dataset.Validate T) = [] := by
  induction dss with
  | nil => rfl
  | cons d rest ih =>
    have hd : Dataset.Validate T d = [] := h d (List.mem_cons_self _ _)
    have hr : rest.flatMap (Dataset.Validate T) = [] :=
      ih (fun ds hds => h ds (List.mem_cons_of_mem _ hds))
    simp [List.flatMap_cons, hd, hr]

/-- The three outcomes of database validation, by the driver. -/
theorem dbValidate_cases (dc : DatabaseConfig) :
    (dc.Driver = "" ∧ dc.Validate = ["Database driver is required"])
    ∨ (dc.Driver ∈ supportedDrivers ∧ dc.Validate = [])
    ∨ (dc.Driver ≠ "" ∧ dc.Driver ∉ supportedDrivers
        ∧ dc.Validate = [unsupportedDriverMsg dc.Driver]) := by
  by_cases he : dc.Driver = ""
  · exact Or.inl ⟨he, dbValidate_empty dc he⟩
  · by_cases hs : dc.Driver ∈ supportedDrivers
    · exact Or.inr (Or.inl ⟨hs, dbValidate_supported dc hs⟩)
    · exact Or.inr (Or.inr ⟨he, hs, dbValidate_unsupported dc he hs⟩)

/-- Database validation finds nothing exactly for a supported driver. -/
theorem dbValidate_nil_iff (dc : DatabaseConfig) :
    dc.Validate = [] ↔ dc.Driver ∈ supportedDrivers := by
  rcases dbValidate_cases dc with ⟨he, h⟩ | ⟨hs, h⟩ | ⟨_, hs, h⟩
  · constructor
    · intro h2; rw [h] at h2; exact absurd h2 (by simp)
    · intro h2; rw [he] at h2; exact absurd h2 (by decide)
  · exact ⟨fun _ => hs, fun _ => h⟩
  · constructor
    · intro h2; rw [h] at h2; exact absurd h2 (by simp)
    · intro h2; exact absurd h2 hs

/-- An unsupported-driver text is never the update-type text. -/
theorem unsupportedDriverMsg_ne_updateTypeMsg (d : String) :
    unsupportedDriverMsg d ≠ updateTypeMsg := by
  intro h
  have := congrArg String.data h
  simp [unsupportedDriverMsg, updateTypeMsg, String.data_append] at this

/-- An unsupported-driver text is never the driver-required text. -/
theorem unsupportedDriverMsg_ne_driverRequired (d : String) :
    unsupportedDriverMsg d ≠ "Database driver is required" := by
  intro h
  have := congrArg String.data h
  simp [unsupportedDriverMsg, String.data_append] at this

/-- An unsupported-driver text is never the config-required text. -/
theorem unsupportedDriverMsg_ne_configRequired (d : String) :
    unsupportedDriverMsg d ≠ "Database config is required" := by
  intro h
  have := congrArg String.data h
  simp [unsupportedDriverMsg, String.data_append] at this

/-- An unsupported-driver text is never the API-key text. -/
theorem unsupportedDriverMsg_ne_apiKeyRequired (d : String) :
    unsupportedDriverMsg d ≠ "Geckoboard api key is required" := by
  intro h
  have := congrArg String.data h
  simp [unsupportedDriverMsg, String.data_append] at this

/-- The datasets contribute nothing exactly when each validates to the empty list. -/
theorem flatMap_validate_nil_iff (T : DatasetTexts) (dss : List Dataset) :
    dss.flatMap (Dataset.Validate T) = [] ↔ ∀ ds ∈ dss, Dataset.Validate T ds = [] := by
  simp [List.flatMap_eq_nil_iff]

/-- The result of field validation, split into its two checks. -/
theorem fieldValidate_parts (T : DatasetTexts) (f : Field) :
    Field.Validate T f
      = (if f.Name = "" then [T.fieldNameRequired] else [])
        ++ (if f.Type_ ∈ T.supportedFieldTypes then [] else [T.fieldTypeUnsupported f.Type_]) := by
  unfold Field.Validate
  by_cases hn : f.Name = "" <;> by_cases ht : f.Type_ ∈ T.supportedFieldTypes <;>
    simp [hn, ht]

/-- The result of dataset validation, split into its four parts. -/
theorem datasetValidate_parts (T : DatasetTexts) (ds : Dataset) :
    Dataset.Validate T ds
      = (if ds.Name = "" then [T.nameRequired] else [])
        ++ (if ds.UpdateType ≠ "append" ∧ ds.UpdateType ≠ "replace"
              then ["Dataset update type must be append or replace"] else [])
        ++ (if ds.SQL = "" then [T.sqlRequired] else [])
        ++ ds.Fields.flatMap (Field.Validate T) := by
  unfold Dataset.Validate
  simp only [foldl_append_flatMap, Append, Replace, updateTypeMsg]
  by_cases hn : ds.Name = "" <;> by_cases ha : ds.UpdateType = "append" <;>
    by_cases hr : ds.UpdateType = "replace" <;> by_cases hs : ds.SQL = "" <;>
    simp [hn, ha, hr, hs]

/-- A text that is neither field text does not occur among the field violations. -/
theorem count_fields_zero (T : DatasetTexts) (m : String)
    (hfname : T.fieldNameRequired ≠ m) (hftype : ∀ t, T.fieldTypeUnsupported t ≠ m)
    (fs : List Field) :
    (fs.flatMap (Field.Validate T)).count m = 0 := by
  rw [List.count_eq_zero]
  intro hmem
  rcases List.mem_flatMap.1 hmem with ⟨f, _, hf⟩
  rw [fieldValidate_parts] at hf
  rcases List.mem_append.1 hf with h | h
  · by_cases hn : f.Name = ""
    · simp [hn] at h; exact hfname h.symm
    · simp [hn] at h
  · by_cases ht : f.Type_ ∈ T.supportedFieldTypes
    · simp [ht] at h
    · simp [ht] at h; exact hftype _ h.symm

/-- How often one dataset reports the update-type text: once if its update type is
neither `append` nor `replace`, else never, when the other dataset texts differ from it. -/
theorem count_dataset (T : DatasetTexts) (ds : Dataset)
    (hname : T.nameRequired ≠ "Dataset update type must be append or replace")
    (hsql : T.sqlRequired ≠ "Dataset update type must be append or replace")
    (hfname : T.fieldNameRequired ≠ "Dataset update type must be append or replace")
    (hftype : ∀ t, T.fieldTypeUnsupported t ≠ "Dataset update type must be append or replace") :
    (Dataset.Validate T ds).count "Dataset update type must be append or replace"
      = if ds.UpdateType ≠ "append" ∧ ds.UpdateType ≠ "replace" then 1 else 0 := by
  rw [datasetValidate_parts]
  simp only [List.count_append, count_fields_zero T _ hfname hftype]
  have h1 : (if ds.Name = "" then [T.nameRequired] else []).count
      "Dataset update type must be append or replace" = 0 := by
    by_cases hn : ds.Name = "" <;> simp [hn, List.count_eq_zero, hname.symm]
  have h3 : (if ds.SQL = "" then [T.sqlRequired] else []).count
      "Dataset update type must be append or replace" = 0 := by
    by_cases hn : ds.SQL = "" <;> simp [hn, List.count_eq_zero, hsql.symm]
  rw [h1, h3]
  by_cases hu : ds.UpdateType ≠ "append" ∧ ds.UpdateType ≠ "replace" <;> simp [hu]

/-- The update-type text occurs among the dataset violations once per offending dataset. -/
theorem count_flatMap_datasets (T : DatasetTexts) (dss : List Dataset)
    (hname : T.nameRequired ≠ "Dataset update type must be append or replace")
    (hsql : T.sqlRequired ≠ "Dataset update type must be append or replace")
    (hfname : T.fieldNameRequired ≠ "Dataset update type must be append or replace")
    (hftype : ∀ t, T.fieldTypeUnsupported t ≠ "Dataset update type must be append or replace") :
    (dss.flatMap (Dataset.Validate T)).count "Dataset update type must be append or replace"
      = dss.countP (fun ds => ds.UpdateType != "append" && ds.UpdateType != "replace") := by
  induction dss with
  | nil => rfl
  | cons d rest ih =>
    rw [List.flatMap_cons, List.count_append, ih, count_dataset T d hname hsql hfname hftype,
      List.countP_cons]
    by_cases ha : d.UpdateType = "append" <;> by_cases hr : d.UpdateType = "replace" <;>
      simp [ha, hr, Nat.add_comm]

/-- The API-key and database checks never report the update-type text. -/
theorem count_top_zero (c : Config) :
    (apiKeyPart c ++ databasePart c).count "Dataset update type must be append or replace"
      = 0 := by
  rw [List.count_eq_zero]
  intro hmem
  rcases List.mem_append.1 hmem with h | h
  · unfold apiKeyPart at h
    by_cases hk : c.GeckoboardAPIKey = ""
    · simp [hk] at h
    · simp [hk] at h
  · unfold databasePart at h
    cases hdb : c.DatabaseConfig with
    | none => simp [hdb] at h
    | some dc =>
      simp only [hdb] at h
      rcases dbValidate_cases dc with ⟨_, hv⟩ | ⟨_, hv⟩ | ⟨_, _, hv⟩
      · rw [hv] at h; simp at h
      · rw [hv] at h; simp at h
      · rw [hv] at h
        exact unsupportedDriverMsg_ne_updateTypeMsg dc.Driver (List.mem_singleton.1 h).symm

/-- The loop `for ... { errors = append(errors, f x...) }` as a computation: it ends with
the violations it started with followed by those of each element, in the state it
started in. -/
theorem forIn_append_state {σ α : Type} (f : α → List String) (xs : List α)
    (init : List String) (s : σ) :
    forIn xs init (fun x r => (StateT.pure PUnit.unit : StateM σ PUnit).bind fun _ =>
        StateT.pure (ForInStep.yield (r ++ f x))) s
      = (init ++ xs.flatMap f, s) := by
  induction xs generalizing init with
  | nil => simp [pure, StateT.pure]
  | cons x rest ih =>
    simp only [List.forIn_cons, List.flatMap_cons]
    simp only [bind, StateT.bind, StateT.pure, pure]
    rw [← List.append_assoc]
    exact ih (init ++ f x)

/-- The computation `Config.ValidateM` returns what the function `Config.Validate` returns
and ends in the state it started in. -/
theorem validateM_run (T : DatasetTexts) (c : Config) :
    (Config.ValidateM T).run c = (Config.Validate T c, c) := by
  rw [validate_parts]
  unfold Config.ValidateM
  simp only [StateT.run, bind, StateT.bind, get, getThe, MonadStateOf.get, StateT.get, pure,
    StateT.pure]
  by_cases hk : c.GeckoboardAPIKey = "" <;> cases hdb : c.DatabaseConfig <;>
    simp only [hk, beq_self_eq_true, if_true, beq_iff_eq, if_false] <;>
    simp only [apiKeyPart, databasePart, hk, hdb, if_true, if_false] <;>
    (have h := @forIn_append_state Config Dataset (Dataset.Validate T) c.Datasets
     simp only [bind, StateT.bind, StateT.pure, pure] at h ⊢
     simp [h])

/-- Database validation reports at most one violation. -/
theorem dbValidate_length_le (dc : DatabaseConfig) : dc.Validate.length ≤ 1 := by
  rcases dbValidate_cases dc with ⟨_, h⟩ | ⟨_, h⟩ | ⟨_, _, h⟩ <;> simp [h]

/-! ## Properties of the validator -/

/-- C1 (as amended): for every configuration whose API key is empty, whose
database block is absent and whose datasets each validate to the empty list (in
particular a configuration without datasets), `Config.Validate` returns exactly
the two violations "Geckoboard api key is required" and "Database config is
required", in that order. -/
theorem validate_empty_key_no_database (T : DatasetTexts) (c : Config)
    (hkey : c.GeckoboardAPIKey = "") (hdb : c.DatabaseConfig = none)
    (hds : ∀ ds ∈ c.Datasets, Dataset.Validate T ds = []) :
    Config.Validate T c
      = ["Geckoboard api key is required", "Database config is required"] := by
  rw [validate_parts, flatMap_validate_nil T c.Datasets hds]
  simp [apiKeyPart, databasePart, hkey, hdb]

/-- C1, witness: the configuration with an empty API key, no database block and
one valid dataset. -/
theorem validate_empty_key_no_database_witness :
    Config.Validate sampleTexts
        { GeckoboardAPIKey := "", DatabaseConfig := none,
          Datasets := [{ Name := "users.count", UpdateType := "replace", SQL := "fake sql",
                         Fields := [{ Name := "count", Type_ := "number" }] }] }
      = ["Geckoboard api key is required", "Database config is required"] :=
  validate_empty_key_no_database sampleTexts _ rfl rfl (by decide)

/-- C1, counterexample: a configuration with an empty API key and no database
block whose only dataset is the one of the sixth case of `TestValidate` (update
type "wrong") does not validate to the two-element list, whatever the texts of
dataset validation are: the dataset adds its own violation. -/
theorem validate_empty_key_no_database_counterexample :
    ¬ ∃ T : DatasetTexts,
        Config.Validate T
            { GeckoboardAPIKey := "", DatabaseConfig := none,
              Datasets := [{ Name := "users.count", UpdateType := "wrong", SQL := "fake sql",
                             Fields := [{ Name := "count", Type_ := "number" }] }] }
          = ["Geckoboard api key is required", "Database config is required"] := by
  rintro ⟨T, h⟩
  have hlen := congrArg List.length h
  rw [validate_parts] at hlen
  simp [apiKeyPart, databasePart, datasetValidate_parts] at hlen

/-- C2, the code at the failing input: with an empty API key and a database block
left at its zero value, `Config.Validate` returns the API-key and the driver
violation only; no "Database url is required" follows. -/
theorem validate_zero_database (T : DatasetTexts) :
    Config.Validate T { GeckoboardAPIKey := "", DatabaseConfig := some {} }
        = ["Geckoboard api key is required", "Database driver is required"]
    ∧ Config.Validate T { GeckoboardAPIKey := "", DatabaseConfig := some {} }
        ≠ ["Geckoboard api key is required", "Database driver is required",
           "Database url is required"] := by
  have h : Config.Validate T { GeckoboardAPIKey := "", DatabaseConfig := some {} }
      = ["Geckoboard api key is required", "Database driver is required"] := by
    rw [validate_parts]
    simp [apiKeyPart, databasePart, DatabaseConfig.Validate]
  rw [h]
  exact ⟨rfl, by decide⟩

/-- C3, the code at the failing input: for the driver "pear" the one violation
prints the supported drivers as `[mysql postgres sqlite3]`, not as
`[postgresql mysql]`. -/
theorem validate_pear_driver (T : DatasetTexts) :
    Config.Validate T
        { GeckoboardAPIKey := "123",
          DatabaseConfig := some { Driver := "pear", URL := "pear://localhost/test" } }
        = ["Unsupported driver 'pear' only [mysql postgres sqlite3] are supported"]
    ∧ Config.Validate T
        { GeckoboardAPIKey := "123",
          DatabaseConfig := some { Driver := "pear", URL := "pear://localhost/test" } }
        ≠ ["Unsupported driver 'pear' only [postgresql mysql] are supported"] := by
  have h : Config.Validate T
        { GeckoboardAPIKey := "123",
          DatabaseConfig := some { Driver := "pear", URL := "pear://localhost/test" } }
        = ["Unsupported driver 'pear' only [mysql postgres sqlite3] are supported"] := by
    rw [validate_parts]
    have hdb : DatabaseConfig.Validate { Driver := "pear", URL := "pear://localhost/test" }
        = ["Unsupported driver 'pear' only [mysql postgres sqlite3] are supported"] := by
      decide
    simp [apiKeyPart, databasePart, hdb]
  rw [h]
  exact ⟨rfl, by decide⟩

/-- C4: for every non-empty driver `d` that is none of mysql, postgres, sqlite3,
`DatabaseConfig.Validate` returns exactly one violation, the text
"Unsupported driver 'd' only [mysql postgres sqlite3] are supported". -/
theorem dbValidate_unsupported_text (dc : DatabaseConfig) (hne : dc.Driver ≠ "")
    (hmysql : dc.Driver ≠ "mysql") (hpostgres : dc.Driver ≠ "postgres")
    (hsqlite : dc.Driver ≠ "sqlite3") :
    dc.Validate
      = ["Unsupported driver '" ++ dc.Driver
          ++ "' only [mysql postgres sqlite3] are supported"] := by
  have hnot : dc.Driver ∉ supportedDrivers := by
    rw [mem_supportedDrivers]
    rintro (h | h | h)
    · exact hmysql h
    · exact hpostgres h
    · exact hsqlite h
  rw [dbValidate_unsupported dc hne hnot, unsupportedDriverMsg_eq]

/-- C4, witness: the driver "pear". -/
theorem dbValidate_unsupported_text_witness :
    DatabaseConfig.Validate { Driver := "pear" }
      = ["Unsupported driver '" ++ "pear"
          ++ "' only [mysql postgres sqlite3] are supported"] :=
  dbValidate_unsupported_text { Driver := "pear" } (by decide) (by decide) (by decide)
    (by decide)

/-- C5: for every configuration with a non-empty API key, no datasets and a
database block whose driver is mysql, postgres or sqlite3, `Config.Validate`
returns the empty list, whatever the refresh interval and the URL are. -/
theorem validate_supported_driver (T : DatasetTexts) (c : Config) (dc : DatabaseConfig)
    (hkey : c.GeckoboardAPIKey ≠ "") (hds : c.Datasets = [])
    (hdb : c.DatabaseConfig = some dc)
    (hdrv : dc.Driver = "mysql" ∨ dc.Driver = "postgres" ∨ dc.Driver = "sqlite3") :
    Config.Validate T c = [] := by
  have hsup : dc.Driver ∈ supportedDrivers := (mem_supportedDrivers _).2 hdrv
  rw [validate_parts, hds]
  simp [apiKeyPart, databasePart, hkey, hdb, dbValidate_supported dc hsup]

/-- C5, witness: the driver mysql with the refresh interval 120. -/
theorem validate_supported_driver_witness :
    Config.Validate sampleTexts
        { GeckoboardAPIKey := "1234-12345", RefreshTimeSec := 120,
          DatabaseConfig := some { Driver := "mysql", URL := "mysql://localhost/testdb" } }
      = [] :=
  validate_supported_driver sampleTexts _ { Driver := "mysql", URL := "mysql://localhost/testdb" }
    (by decide) rfl rfl (Or.inl rfl)

/-- C6: `Config.Validate` returns the empty list if and only if the configuration
is valid: the API key is non-empty, the database block is present with a driver
among mysql, postgres, sqlite3, and every dataset of the configuration validates
to the empty list. -/
theorem validate_nil_iff_valid (T : DatasetTexts) (c : Config) :
    Config.Validate T c = []
      ↔ c.GeckoboardAPIKey ≠ ""
        ∧ (∃ dc, c.DatabaseConfig = some dc
            ∧ (dc.Driver = "mysql" ∨ dc.Driver = "postgres" ∨ dc.Driver = "sqlite3"))
        ∧ ∀ ds ∈ c.Datasets, Dataset.Validate T ds = [] := by
  rw [validate_parts]
  simp only [List.append_eq_nil, flatMap_validate_nil_iff]
  have hapi : apiKeyPart c = [] ↔ c.GeckoboardAPIKey ≠ "" := by
    unfold apiKeyPart
    by_cases hk : c.GeckoboardAPIKey = "" <;> simp [hk]
  have hdb : databasePart c = [] ↔ ∃ dc, c.DatabaseConfig = some dc
            ∧ (dc.Driver = "mysql" ∨ dc.Driver = "postgres" ∨ dc.Driver = "sqlite3") := by
    unfold databasePart
    cases h : c.DatabaseConfig with
    | none => simp
    | some dc => simp [dbValidate_nil_iff, mem_supportedDrivers]
  rw [hapi, hdb, and_assoc]

/-- C7: for every configuration the result of `Config.Validate` is the
concatenation, in this order, of the API-key violation (if the API key is
empty), the database part ("Database config is required" if the block is absent,
else the result of `DatabaseConfig.Validate`), and the results of validating each
dataset, in the order of the datasets. -/
theorem validate_concatenation (T : DatasetTexts) (c : Config) :
    Config.Validate T c
      = (if c.GeckoboardAPIKey = "" then ["Geckoboard api key is required"] else [])
        ++ (match c.DatabaseConfig with
            | none => ["Database config is required"]
            | some dc => dc.Validate)
        ++ c.Datasets.flatMap (Dataset.Validate T) :=
  validate_parts T c

/-- C8: for every database block with an empty driver, `DatabaseConfig.Validate`
reports "Database driver is required" and nothing else; in particular no
unsupported-driver violation, for any driver text, is in the result. -/
theorem dbValidate_empty_driver (dc : DatabaseConfig) (h : dc.Driver = "") :
    dc.Validate = ["Database driver is required"]
      ∧ ∀ d, unsupportedDriverMsg d ∉ dc.Validate := by
  rw [dbValidate_empty dc h]
  refine ⟨rfl, fun d hd => ?_⟩
  exact unsupportedDriverMsg_ne_driverRequired d (List.mem_singleton.1 hd)

/-- C8, witness: the database block at its zero value. -/
theorem dbValidate_empty_driver_witness :
    DatabaseConfig.Validate {} = ["Database driver is required"]
      ∧ ∀ d, unsupportedDriverMsg d ∉ DatabaseConfig.Validate {} :=
  dbValidate_empty_driver {} rfl

/-- C9: for every configuration whose database block is absent, `Config.Validate`
(a total function: it returns a list on the missing block) reports "Database
config is required" exactly once, and the result contains neither "Database
driver is required" nor any unsupported-driver text. The datasets are validated
by code declared outside `config.go`; the hypothesis `hds` says that the
violations of the configuration's datasets are not themselves one of the three
database texts (it holds vacuously for a configuration without datasets). -/
theorem validate_absent_database (T : DatasetTexts) (c : Config) (hdb : c.DatabaseConfig = none)
    (hds : ∀ ds ∈ c.Datasets, ∀ m ∈ Dataset.Validate T ds,
      m ≠ "Database config is required" ∧ m ≠ "Database driver is required"
        ∧ ∀ d, m ≠ unsupportedDriverMsg d) :
    (Config.Validate T c).count "Database config is required" = 1
      ∧ "Database driver is required" ∉ Config.Validate T c
      ∧ ∀ d, unsupportedDriverMsg d ∉ Config.Validate T c := by
  have hparts := validate_parts T c
  have hdbp : databasePart c = ["Database config is required"] := by
    simp [databasePart, hdb]
  rw [hdbp] at hparts
  have hnotin : ∀ m, (m = "Database config is required" ∨ m = "Database driver is required"
      ∨ ∃ d, m = unsupportedDriverMsg d) → m ∉ c.Datasets.flatMap (Dataset.Validate T) := by
    intro m hm hmem
    rcases List.mem_flatMap.1 hmem with ⟨ds, hdsmem, hmds⟩
    obtain ⟨h1, h2, h3⟩ := hds ds hdsmem m hmds
    rcases hm with h | h | ⟨d, h⟩
    · exact h1 h
    · exact h2 h
    · exact h3 d h
  have hapi : ∀ m ∈ apiKeyPart c, m = "Geckoboard api key is required" := by
    intro m hm
    unfold apiKeyPart at hm
    by_cases hk : c.GeckoboardAPIKey = ""
    · simpa [hk] using hm
    · simp [hk] at hm
  rw [hparts]
  refine ⟨?_, ?_, ?_⟩
  · have h0 : (apiKeyPart c).count "Database config is required" = 0 := by
      rw [List.count_eq_zero]
      intro hm
      exact absurd (hapi _ hm) (by decide)
    have h2 : (c.Datasets.flatMap (Dataset.Validate T)).count "Database config is required"
        = 0 := by
      rw [List.count_eq_zero]
      exact hnotin _ (Or.inl rfl)
    simp [List.count_append, h0, h2]
  · intro hmem
    rcases List.mem_append.1 hmem with h | h
    · rcases List.mem_append.1 h with h | h
      · exact absurd (hapi _ h) (by decide)
      · exact absurd (List.mem_singleton.1 h) (by decide)
    · exact hnotin _ (Or.inr (Or.inl rfl)) h
  · intro d hmem
    rcases List.mem_append.1 hmem with h | h
    · rcases List.mem_append.1 h with h | h
      · exact unsupportedDriverMsg_ne_apiKeyRequired d (hapi _ h)
      · exact unsupportedDriverMsg_ne_configRequired d (List.mem_singleton.1 h)
    · exact hnotin _ (Or.inr (Or.inr ⟨d, rfl⟩)) h

/-- C9, witness: no database block, and one dataset with an empty name and the
update type "wrong". -/
theorem validate_absent_database_witness :
    (Config.Validate sampleTexts
        { GeckoboardAPIKey := "123", DatabaseConfig := none,
          Datasets := [{ Name := "", UpdateType := "wrong", SQL := "fake sql" }] }).count
        "Database config is required" = 1
      ∧ "Database driver is required" ∉ Config.Validate sampleTexts
        { GeckoboardAPIKey := "123", DatabaseConfig := none,
          Datasets := [{ Name := "", UpdateType := "wrong", SQL := "fake sql" }] }
      ∧ ∀ d, unsupportedDriverMsg d ∉ Config.Validate sampleTexts
        { GeckoboardAPIKey := "123", DatabaseConfig := none,
          Datasets := [{ Name := "", UpdateType := "wrong", SQL := "fake sql" }] } :=
  validate_absent_database sampleTexts
    { GeckoboardAPIKey := "123", DatabaseConfig := none,
      Datasets := [{ Name := "", UpdateType := "wrong", SQL := "fake sql" }] } rfl
    (by
      intro ds hds m hm
      have hd : ds = { Name := "", UpdateType := "wrong", SQL := "fake sql" } := by
        simpa using hds
      subst hd
      have hv : Dataset.Validate sampleTexts { Name := "", UpdateType := "wrong", SQL := "fake sql" }
          = ["Dataset name is required", "Dataset update type must be append or replace"] := by
        decide
      rw [hv] at hm
      rcases List.mem_cons.1 hm with h | h
      · subst h
        refine ⟨by decide, by decide, fun d e => ?_⟩
        have := congrArg String.data e
        simp [unsupportedDriverMsg, String.data_append] at this
      · have h2 : m = "Dataset update type must be append or replace" := by simpa using h
        subst h2
        exact ⟨by decide, by decide, fun d e => unsupportedDriverMsg_ne_updateTypeMsg d e.symm⟩)

/-- C10: when the other texts of dataset validation differ from "Dataset update
type must be append or replace", every dataset whose update type is neither
`append` nor `replace` reports that violation exactly once, whatever its other
fields are; the result of `Config.Validate` holds it once per such dataset; and a
configuration that is valid but for one such dataset (non-empty name, non-empty
SQL, one valid field) validates to exactly that one violation. -/
theorem validate_update_type_once (T : DatasetTexts) (c : Config)
    (hname : T.nameRequired ≠ "Dataset update type must be append or replace")
    (hsql : T.sqlRequired ≠ "Dataset update type must be append or replace")
    (hfname : T.fieldNameRequired ≠ "Dataset update type must be append or replace")
    (hftype : ∀ t, T.fieldTypeUnsupported t ≠ "Dataset update type must be append or replace") :
    (∀ ds : Dataset, ds.UpdateType ≠ "append" → ds.UpdateType ≠ "replace" →
        (Dataset.Validate T ds).count "Dataset update type must be append or replace" = 1)
    ∧ (Config.Validate T c).count "Dataset update type must be append or replace"
        = c.Datasets.countP (fun ds => ds.UpdateType != "append" && ds.UpdateType != "replace")
    ∧ (∀ dc ds f, c.GeckoboardAPIKey ≠ "" → c.DatabaseConfig = some dc →
        (dc.Driver = "mysql" ∨ dc.Driver = "postgres" ∨ dc.Driver = "sqlite3") →
        c.Datasets = [ds] → ds.UpdateType ≠ "append" → ds.UpdateType ≠ "replace" →
        ds.Name ≠ "" → ds.SQL ≠ "" → ds.Fields = [f] →
        f.Name ≠ "" → f.Type_ ∈ T.supportedFieldTypes →
        Config.Validate T c = ["Dataset update type must be append or replace"]) := by
  refine ⟨?_, ?_, ?_⟩
  · intro ds ha hr
    rw [count_dataset T ds hname hsql hfname hftype]
    simp [ha, hr]
  · rw [validate_parts, List.count_append, count_top_zero,
      count_flatMap_datasets T _ hname hsql hfname hftype, Nat.zero_add]
  · intro dc ds f hkey hdb hdrv hdss ha hr hn hs hfs hfn hft
    have hsup : dc.Driver ∈ supportedDrivers := (mem_supportedDrivers _).2 hdrv
    rw [validate_parts, hdss]
    simp [apiKeyPart, databasePart, hkey, hdb, dbValidate_supported dc hsup,
      datasetValidate_parts, fieldValidate_parts, ha, hr, hn, hs, hfs, hfn, hft]

/-- C10, witness: the sixth case of `TestValidate`, an otherwise valid
configuration whose one dataset has the update type "wrong". -/
theorem validate_update_type_once_witness :
    Config.Validate sampleTexts
        { GeckoboardAPIKey := "1234-12345", RefreshTimeSec := 120,
          DatabaseConfig := some { Driver := "mysql", URL := "mysql://localhost/testdb" },
          Datasets := [{ Name := "users.count", UpdateType := "wrong", SQL := "fake sql",
                         Fields := [{ Name := "count", Type_ := "number" }] }] }
      = ["Dataset update type must be append or replace"] :=
  (validate_update_type_once sampleTexts _ (by decide) (by decide) (by decide)
    (by
      intro t h
      have := congrArg String.data h
      simp [sampleTexts, String.data_append] at this)).2.2
    { Driver := "mysql", URL := "mysql://localhost/testdb" }
    { Name := "users.count", UpdateType := "wrong", SQL := "fake sql",
      Fields := [{ Name := "count", Type_ := "number" }] }
    { Name := "count", Type_ := "number" }
    (by decide) rfl (Or.inl rfl) rfl (by decide) (by decide) (by decide) (by decide) rfl
    (by decide) (by decide)

/-! ## Properties of the loader -/

/-- C11: `LoadConfig` called with the empty path returns a nil configuration and
the error "File path is required to load config", and makes no call outside the
package: it does not read the filesystem, so the result is the same for every
state of the filesystem and every decoder. -/
theorem loadConfig_empty_path {E : Type} (w : World E) :
    LoadConfig w ""
        = ((none, some (LoadError.errorString "File path is required to load config")), [])
      ∧ (∀ w2 : World E, LoadConfig w2 "" = LoadConfig w "")
      ∧ ∀ text : E → String, ∀ err, (LoadConfig w "").1.2 = some err →
          err.Error text = "File path is required to load config" := by
  refine ⟨rfl, fun _ => rfl, ?_⟩
  intro text err h
  have h2 : err = LoadError.errorString "File path is required to load config" := by
    simpa [LoadConfig] using h.symm
  rw [h2]
  rfl

/-- C12: for every non-empty path whose file is read without error and whose
content the decoder rejects with the message `m`, `LoadConfig` returns a nil
configuration and an error whose text is "Error occurred parsing the config: "
followed by `m`. -/
theorem loadConfig_decode_error {E : Type} (w : World E) (filepath : String) (b : List UInt8)
    (decoded : Option Config) (m : String)
    (hpath : filepath ≠ "") (hread : w.ReadFile filepath = (b, none))
    (hdecode : w.Unmarshal b = (decoded, some m)) :
    (LoadConfig w filepath).1
        = (none, some (LoadError.errorString ("Error occurred parsing the config: " ++ m)))
      ∧ ∀ text : E → String,
          (LoadError.errorString ("Error occurred parsing the config: " ++ m)).Error text
            = "Error occurred parsing the config: " ++ m := by
  refine ⟨?_, fun _ => rfl⟩
  simp [LoadConfig, hpath, hread, hdecode, errParseConfigFile]

/-- C12, witness: the decoder's message "yaml: did not find expected key". -/
theorem loadConfig_decode_error_witness :
    (LoadConfig
        ({ ReadFile := fun _ => ([97, 58, 32, 91], none),
           Unmarshal := fun _ => (none, some "yaml: did not find expected key") } : World String)
        "fixtures/invalid_config.yml").1
        = (none, some (LoadError.errorString
            ("Error occurred parsing the config: " ++ "yaml: did not find expected key")))
      ∧ ∀ text : String → String,
          (LoadError.errorString
            ("Error occurred parsing the config: " ++ "yaml: did not find expected key")).Error text
            = "Error occurred parsing the config: " ++ "yaml: did not find expected key" :=
  loadConfig_decode_error _ "fixtures/invalid_config.yml" [97, 58, 32, 91] none
    "yaml: did not find expected key" (by decide) rfl rfl

/-- C13: for every non-empty path for which reading the file fails with the
error `e`, `LoadConfig` returns a nil configuration together with `e` itself,
which is no error made from the parse-error template, and the decoder is not
called: the one call made is the read, and the result is the same for every
decoder. -/
theorem loadConfig_read_error {E : Type} (w : World E) (filepath : String) (b : List UInt8) (e : E)
    (hpath : filepath ≠ "") (hread : w.ReadFile filepath = (b, some e)) :
    LoadConfig w filepath = ((none, some (LoadError.fromReadFile e)), [Call.ReadFile filepath])
      ∧ (∀ m : String, LoadError.fromReadFile e ≠ LoadError.errorString (errParseConfigFile m))
      ∧ (∀ text : E → String, (LoadError.fromReadFile e).Error text = text e)
      ∧ (∀ bytes, Call.Unmarshal bytes ∉ (LoadConfig w filepath).2)
      ∧ ∀ decoder : List UInt8 → Option Config × Option String,
          LoadConfig { ReadFile := w.ReadFile, Unmarshal := decoder } filepath
            = LoadConfig w filepath := by
  have h : ∀ w2 : World E, w2.ReadFile = w.ReadFile →
      LoadConfig w2 filepath
        = ((none, some (LoadError.fromReadFile e)), [Call.ReadFile filepath]) := by
    intro w2 hw
    simp [LoadConfig, hpath, hw, hread]
  refine ⟨h w rfl, fun m hm => (by cases hm), fun _ => rfl, ?_, ?_⟩
  · intro bytes hmem
    rw [h w rfl] at hmem
    simp at hmem
  · intro decoder
    rw [h w rfl]
    exact h _ rfl

/-- C13, witness: a filesystem without the file. -/
theorem loadConfig_read_error_witness :
    LoadConfig
        ({ ReadFile := fun _ => ([], some "open fixtures/missing.yml: no such file or directory"),
           Unmarshal := fun _ => (none, none) } : World String)
        "fixtures/missing.yml"
      = ((none, some (LoadError.fromReadFile
            "open fixtures/missing.yml: no such file or directory")),
          [Call.ReadFile "fixtures/missing.yml"]) :=
  (loadConfig_read_error _ "fixtures/missing.yml" []
    "open fixtures/missing.yml: no such file or directory" (by decide) rfl).1

/-! ## Further properties of the validator -/

/-- C14: `Config.Validate` is deterministic and without side effect: run as a
computation over the caller's configuration it returns the list the function
`Config.Validate` gives and leaves the configuration, its database block and
datasets included, as it was; two calls in a row on the same configuration
return identical lists and leave the configuration unchanged. -/
theorem validate_deterministic_no_effect (T : DatasetTexts) (c : Config) :
    (Config.ValidateM T).run c = (Config.Validate T c, c)
      ∧ (validateTwice T).run c = ((Config.Validate T c, Config.Validate T c), c) := by
  refine ⟨validateM_run T c, ?_⟩
  have h := validateM_run T c
  simp only [StateT.run] at h
  simp [validateTwice, StateT.run, bind, StateT.bind, pure, StateT.pure, h]

/-- C15: the refresh interval is not validated: two configurations that differ
only in `RefreshTimeSec` validate to the same list. -/
theorem validate_ignores_refresh (T : DatasetTexts) (c₁ c₂ : Config)
    (hkey : c₁.GeckoboardAPIKey = c₂.GeckoboardAPIKey)
    (hdb : c₁.DatabaseConfig = c₂.DatabaseConfig)
    (hds : c₁.Datasets = c₂.Datasets) :
    Config.Validate T c₁ = Config.Validate T c₂ := by
  unfold Config.Validate
  rw [hkey, hdb, hds]

/-- C15, witness: the refresh intervals 0 and 65535. -/
theorem validate_ignores_refresh_witness :
    Config.Validate sampleTexts
        { GeckoboardAPIKey := "1234-12345", RefreshTimeSec := 0,
          DatabaseConfig := some { Driver := "pear" } }
      = Config.Validate sampleTexts
        { GeckoboardAPIKey := "1234-12345", RefreshTimeSec := 65535,
          DatabaseConfig := some { Driver := "pear" } } :=
  validate_ignores_refresh sampleTexts _ _ rfl rfl rfl

/-- C16: database validation exercises no rule beyond the driver: two database
blocks with the same driver validate to the same list, whatever their URL, host,
port, protocol, database name, username, password, TLS block and params are. -/
theorem dbValidate_depends_on_driver_only (dc₁ dc₂ : DatabaseConfig) (hdriver : dc₁.Driver = dc₂.Driver) :
    dc₁.Validate = dc₂.Validate := by
  unfold DatabaseConfig.Validate
  rw [hdriver]

/-- C16, witness: the driver "pear" with every other member set, and with none. -/
theorem dbValidate_depends_on_driver_only_witness :
    DatabaseConfig.Validate
        { Driver := "pear", URL := "pear://localhost/test", Host := "localhost", Port := "5432",
          Protocol := "tcp", Database := "test", Username := "root", Password := "secret",
          TLSConfig := some { KeyFile := "key.pem", SSLMode := "verify-full" },
          Params := [("charset", "utf8")] }
      = DatabaseConfig.Validate { Driver := "pear" } :=
  dbValidate_depends_on_driver_only _ _ rfl

/-- C17: `DatabaseConfig.Validate` returns at most one violation for every
database block; hence for every configuration without datasets `Config.Validate`
returns at most two violations, at most one for the API key and at most one for
the database part. -/
theorem validate_violation_count (T : DatasetTexts) (c : Config) (hds : c.Datasets = []) :
    (∀ dc : DatabaseConfig, dc.Validate.length ≤ 1)
      ∧ (Config.Validate T c).length ≤ 2
      ∧ Config.Validate T c = apiKeyPart c ++ databasePart c
      ∧ (apiKeyPart c).length ≤ 1 ∧ (databasePart c).length ≤ 1 := by
  have hapi : (apiKeyPart c).length ≤ 1 := by
    unfold apiKeyPart
    by_cases hk : c.GeckoboardAPIKey = "" <;> simp [hk]
  have hdb : (databasePart c).length ≤ 1 := by
    unfold databasePart
    cases h : c.DatabaseConfig with
    | none => simp
    | some dc => exact dbValidate_length_le dc
  have hv : Config.Validate T c = apiKeyPart c ++ databasePart c := by
    rw [validate_parts, hds]
    simp
  refine ⟨dbValidate_length_le, ?_, hv, hapi, hdb⟩
  rw [hv, List.length_append]
  omega

/-- C17, witness: the zero configuration, which reaches the bound of two. -/
theorem validate_violation_count_witness :
    (Config.Validate sampleTexts {}).length ≤ 2
      ∧ Config.Validate sampleTexts {}
          = ["Geckoboard api key is required", "Database config is required"] :=
  ⟨(validate_violation_count sampleTexts {} rfl).2.1, by decide⟩

/-- C18: driver membership is exact, case-sensitive equality with one of mysql,
postgres, sqlite3: database validation finds nothing exactly for these three
texts, every other non-empty driver gets the one unsupported-driver violation,
and so "postgresql", "MySQL" and "sqlite" each yield exactly one unsupported-driver
violation while "postgres", "mysql" and "sqlite3" yield none. -/
theorem driver_membership_exact :
    (∀ dc : DatabaseConfig,
        dc.Validate = [] ↔ dc.Driver = "mysql" ∨ dc.Driver = "postgres" ∨ dc.Driver = "sqlite3")
      ∧ (∀ dc : DatabaseConfig, dc.Driver ≠ "" →
          ¬ (dc.Driver = "mysql" ∨ dc.Driver = "postgres" ∨ dc.Driver = "sqlite3") →
          dc.Validate = [unsupportedDriverMsg dc.Driver])
      ∧ DatabaseConfig.Validate { Driver := "postgresql" }
          = ["Unsupported driver 'postgresql' only [mysql postgres sqlite3] are supported"]
      ∧ DatabaseConfig.Validate { Driver := "MySQL" }
          = ["Unsupported driver 'MySQL' only [mysql postgres sqlite3] are supported"]
      ∧ DatabaseConfig.Validate { Driver := "sqlite" }
          = ["Unsupported driver 'sqlite' only [mysql postgres sqlite3] are supported"]
      ∧ DatabaseConfig.Validate { Driver := "postgres" } = []
      ∧ DatabaseConfig.Validate { Driver := "mysql" } = []
      ∧ DatabaseConfig.Validate { Driver := "sqlite3" } = [] := by
  refine ⟨?_, ?_, by decide, by decide, by decide, by decide, by decide, by decide⟩
  · intro dc
    rw [dbValidate_nil_iff, mem_supportedDrivers]
  · intro dc hne hnot
    exact dbValidate_unsupported dc hne (fun h => hnot ((mem_supportedDrivers _).1 h))

end SqlDataset
